import Mathlib

/-!
# Verification of the AssembledTransaction lifecycle coordinator

A shallow embedding of `src/contract/assembled_transaction.ts`: the state of an
in-flight contract invocation (draft, finalized transaction, raw simulation,
memoized simulation cache, signed envelope) together with the operations
`simulate`, `simulationData`, `needsNonInvokerSigningBy`, `sign`,
`signAuthEntries`, `restoreFootprint`, `toJSON`/`fromJSON`.

External collaborators (the XDR codec of stellar-base, the rpc `Api` response
shapes, `assembleTransaction`, `getAccount`, the submission tracker
`SentTransaction`, and the `DEFAULT_TIMEOUT` constant from `types.ts`) are not
part of the analysed source tree; they are modelled from the specification, and
each such definition carries a doc comment saying so.  The opaque binary codec
is modelled as the identity on structured values, so a base64 wire field is
represented by the structured value it encodes.
-/

namespace Stellar

/-- Wire value type of the host environment.  Only the distinction between the
void value (an empty authorization-signature slot) and any other value matters
to the coordinator, so every non-void value is collapsed to a numeric payload. -/
inductive ScVal where
  | scvVoid : ScVal
  | scvOther : Nat → ScVal
deriving DecidableEq, Repr

/-- Credentials of a Soroban authorization entry: either the transaction source
account (no separate signature needed) or an explicit address with a signature
slot and a signature-expiration ledger. -/
inductive SorobanCredentials where
  | sourceAccount : SorobanCredentials
  | address (addr : String) (signature : ScVal) (signatureExpirationLedger : Nat) :
      SorobanCredentials
deriving DecidableEq, Repr

/-- A Soroban authorization entry: credentials plus an opaque root invocation. -/
structure AuthEntry where
  credentials : SorobanCredentials
  rootInvocation : Nat
deriving DecidableEq, Repr

/-- Soroban transaction resource data.  Only the footprint (read-only and
read-write ledger keys, opaque here) and a resource fee are represented. -/
structure SorobanTransactionData where
  readOnly : List Nat
  readWrite : List Nat
  resourceFee : Nat
deriving DecidableEq, Repr

/-- An operation of a transaction: the single invoke-host-function operation
built by the library, or the dedicated restore-footprint operation. -/
inductive Operation where
  | invokeHostFunction (method : String) (args : List ScVal) (auth : List AuthEntry) :
      Operation
  | restoreFootprintOp : Operation
deriving DecidableEq, Repr

/-- A (built) transaction.  The XDR codec being modelled as the identity, this
structure stands both for the transaction and for its wire encoding. -/
structure Tx where
  source : String
  seqNum : Nat
  fee : String
  operations : List Operation
  sorobanData : Option SorobanTransactionData
  timeout : Nat
deriving DecidableEq, Repr

/-- Result carried by a successful simulation: authorization entries plus the
return value. -/
structure SimulateHostFunctionResult where
  auth : List AuthEntry
  retval : ScVal
deriving DecidableEq, Repr

/-- Restore preamble of a restore-required simulation response. -/
structure RestorePreamble where
  minResourceFee : String
  transactionData : SorobanTransactionData
deriving DecidableEq, Repr

/-- Modelled from the spec: the rpc Api module (not in the analysed source
tree) classifies a simulation response into one of three disjoint shapes:
error, restore-required, or success (whose result may be absent). -/
inductive SimResponse where
  | error (msg : String) : SimResponse
  | restoreRequired (preamble : RestorePreamble) : SimResponse
  | success (result : Option SimulateHostFunctionResult)
      (transactionData : SorobanTransactionData) : SimResponse
deriving DecidableEq, Repr

/-- An account, as returned by the account-lookup collaborator. -/
structure Account where
  accountId : String
  sequence : Nat
deriving DecidableEq, Repr

/-- Construction options of an AssembledTransaction (the recognized fields the
coordinator itself reads).  Callbacks are borrowed functions; with the codec
modelled as the identity, `signTransaction` maps a transaction to its signed
form and `signAuthEntry` maps a preimage payload to signature bytes. -/
structure Options where
  contractId : String
  method : String
  args : List ScVal
  publicKey : String
  networkPassphrase : String
  fee : Option String
  timeoutInSeconds : Option Nat
  restore : Bool
  signTransaction : Option (Tx → Tx)
  signAuthEntry : Option (Nat → Nat)

/-- The mutable state of an AssembledTransaction: draft, built transaction,
raw simulation, the two memoized simulation-cache fields, signed envelope. -/
structure AssembledState where
  raw : Option Tx
  built : Option Tx
  simulation : Option SimResponse
  simulationResult : Option SimulateHostFunctionResult
  simulationTransactionData : Option SorobanTransactionData
  signed : Option Tx
deriving DecidableEq, Repr

/-- The state of a freshly constructed AssembledTransaction. -/
def emptyState : AssembledState :=
  { raw := none, built := none, simulation := none, simulationResult := none
    simulationTransactionData := none, signed := none }

/-- Modelled from the spec: `DEFAULT_TIMEOUT` lives in `types.ts` (not in the
analysed source tree); the spec only requires a fixed constant. -/
def DEFAULT_TIMEOUT : Nat := 300

/-- Modelled from the spec: `BASE_FEE` of the external stellar-base package,
the default fee ceiling. -/
def BASE_FEE : String := "100"

/-- The errors raised when deriving `simulationData`. -/
inductive SimDataErr where
  | notYetSimulated : SimDataErr
  | simulationFailed (msg : String) : SimDataErr
  | expiredState : SimDataErr
deriving DecidableEq, Repr

/-- The memoized pair returned by the `simulationData` accessor. -/
structure SimData where
  result : SimulateHostFunctionResult
  transactionData : SorobanTransactionData
deriving DecidableEq, Repr

/-- The `simulationData` getter (source lines 550-586): return the memoized
pair when both cache fields are populated; otherwise require a raw simulation
(`NotYetSimulated`), fail on an error response (`SimulationFailed`) or a
restore-required response (`ExpiredState`), and otherwise derive and memoize
the cache, defaulting an empty-auth/void-return result when the response
carried none.  The getter mutates the instance, so it returns the updated
state along with the pair. -/
def simulationData (st : AssembledState) :
    Except SimDataErr (SimData × AssembledState) :=
  match st.simulationResult, st.simulationTransactionData with
  | some r, some d => .ok (⟨r, d⟩, st)
  | _, _ =>
    match st.simulation with
    | none => .error .notYetSimulated
    | some (.error msg) => .error (.simulationFailed msg)
    | some (.restoreRequired _) => .error .expiredState
    | some (.success result txData) =>
      let r := result.getD ⟨[], ScVal.scvVoid⟩
      .ok (⟨r, txData⟩,
        { st with simulationResult := some r
                  simulationTransactionData := some txData })

/-- Memoized access: when both cache fields are populated, `simulationData`
returns them unchanged. -/
theorem simulationData_cached (st : AssembledState)
    (r : SimulateHostFunctionResult) (d : SorobanTransactionData)
    (hr : st.simulationResult = some r)
    (hd : st.simulationTransactionData = some d) :
    simulationData st = .ok (⟨r, d⟩, st) := by
  unfold simulationData
  rw [hr, hd]

/-- Idempotence helper: a successful `simulationData` populates both cache
fields, so a second access returns the same pair and the same state. -/
theorem simulationData_idem (st st' : AssembledState) (d : SimData)
    (h : simulationData st = .ok (d, st')) :
    simulationData st' = .ok (d, st') := by
  unfold simulationData at h ⊢
  rcases hr : st.simulationResult with _ | r <;>
    rcases hd : st.simulationTransactionData with _ | dt <;>
      simp only [hr, hd] at h
  case none.none | some.none | none.some =>
    rcases hs : st.simulation with _ | (msg | p | ⟨res, txd⟩) <;>
        simp only [hs] at h
    · cases h
    · cases h
    · cases h
    · injection h with h; injection h with h1 h2
      subst h2; subst h1; rfl
  case some.some =>
    injection h with h; injection h with h1 h2
    subst h2; rw [hr, hd]
    rw [← h1]

/-- Deduplication as performed by a JavaScript `Set`: keep the first
occurrence of each element, in source order. -/
def dedupFirst : List String → List String
  | [] => []
  | a :: l => a :: dedupFirst (l.filter (fun b => b != a))
termination_by l => l.length
decreasing_by
  simp only [List.length_cons]
  exact Nat.lt_succ_of_le (List.length_filter_le _ _)

/-- Membership is unchanged by first-occurrence deduplication. -/
theorem mem_dedupFirst (x : String) (l : List String) :
    x ∈ dedupFirst l ↔ x ∈ l := by
  induction l using dedupFirst.induct with
  | case1 => simp [dedupFirst]
  | case2 a l ih =>
    simp only [dedupFirst, List.mem_cons, ih, List.mem_filter, bne_iff_ne,
      ne_eq, decide_eq_true_eq]
    constructor
    · rintro (rfl | ⟨h, _⟩)
      · exact Or.inl rfl
      · exact Or.inr h
    · rintro (rfl | h)
      · exact Or.inl rfl
      · by_cases hx : x = a
        · exact Or.inl hx
        · exact Or.inr ⟨h, hx⟩

/-- First-occurrence deduplication produces a duplicate-free list. -/
theorem nodup_dedupFirst (l : List String) : (dedupFirst l).Nodup := by
  induction l using dedupFirst.induct with
  | case1 => simp [dedupFirst]
  | case2 a l ih =>
    simp only [dedupFirst, List.nodup_cons]
    refine ⟨fun hmem => ?_, ih⟩
    rw [mem_dedupFirst] at hmem
    rcases List.mem_filter.mp hmem with ⟨-, hne⟩
    simp at hne

/-- The authorization entries of the first operation of a built transaction.
The source reads `operations[0].auth ?? []`; transactions built by this
library always hold exactly one invoke-host-function operation, and a
restore-footprint operation has no auth field (hence `[]`). -/
def authEntriesOf (tx : Tx) : List AuthEntry :=
  match tx.operations with
  | Operation.invokeHostFunction _ _ auth :: _ => auth
  | _ => []

/-- The per-entry selector of `needsNonInvokerSigningBy` (source lines
753-770): an entry contributes its address exactly when its credential kind is
address-based and, unless `includeAlreadySigned`, its signature slot is still
the void value. -/
def entryContributes (includeAlreadySigned : Bool) (e : AuthEntry) :
    Option String :=
  match e.credentials with
  | .sourceAccount => none
  | .address addr sig _ =>
    if includeAlreadySigned || sig == ScVal.scvVoid then some addr else none

/-- The list of non-invoker signer identities of a built transaction:
selected addresses of the first operation's auth entries, first-occurrence
deduplicated (a JavaScript `Set` keeps insertion order). -/
def nonInvokerSigners (includeAlreadySigned : Bool) (tx : Tx) : List String :=
  dedupFirst ((authEntriesOf tx).filterMap (entryContributes includeAlreadySigned))

/-- The error raised by `needsNonInvokerSigningBy` when the transaction has
not been finalized. -/
inductive AuthErr where
  | notYetBuilt : AuthErr
deriving DecidableEq, Repr

/-- `needsNonInvokerSigningBy` (source lines 727-771): requires a finalized
transaction, then scans the single operation's auth entries. -/
def needsNonInvokerSigningBy (includeAlreadySigned : Bool)
    (st : AssembledState) : Except AuthErr (List String) :=
  match st.built with
  | none => .error .notYetBuilt
  | some tx => .ok (nonInvokerSigners includeAlreadySigned tx)

/-- The contract-address test `id.startsWith("C")` of the source, expressed
on the string's character list (a contract identity starts with the letter
C, an account identity with G) so that it evaluates by kernel reduction. -/
def startsWithUpperC (id : String) : Bool := id.data.head? == some ('C')

/-- The pure read-call test on a simulation-data pair: zero authorization
entries and zero read-write footprint entries. -/
def isReadCallOf (d : SimData) : Bool :=
  d.result.auth.length == 0 && d.transactionData.readWrite.length == 0

/-- The `isReadCall` getter (source lines 892-899): reads `simulationData`
(which may fail and which memoizes, hence the returned state) and tests for
zero auth entries and zero read-write footprint entries. -/
def isReadCall (st : AssembledState) :
    Except SimDataErr (Bool × AssembledState) :=
  match simulationData st with
  | .error e => .error e
  | .ok (d, st') => .ok (isReadCallOf d, st')

/-- The errors raised by `sign` (source lines 616-668).  The source throws a
plain error when the transaction was never simulated and dedicated error
classes otherwise; failures coming out of the `simulationData` getter (via
`isReadCall` or the re-finalization step) propagate unchanged. -/
inductive SignError where
  | notYetSimulatedTx : SignError
  | noSignatureNeeded : SignError
  | noSigner : SignError
  | needsMoreSignatures (who : List String) : SignError
  | simData (e : SimDataErr) : SignError
deriving DecidableEq, Repr

/-- `sign` (source lines 616-668).  Checks, in source order: a built
transaction is present; unless `force`, the call is not a read call
(`NoSignatureNeeded`); a `signTransaction` callback is available
(`NoSigner`); no non-invoker, non-contract (identity not starting with C)
address still needs to sign (`NeedsMoreSignatures`).  Then re-finalizes the
transaction (same fee, fresh timeout, resource data pinned from
`simulationData`) and stores the decoded callback result as the signed
envelope.  Since the built transaction is present, the source call
`this.needsNonInvokerSigningBy()` equals `nonInvokerSigners false` on it. -/
def sign (force : Bool) (signTransaction : Option (Tx → Tx)) (opts : Options)
    (st : AssembledState) : Except SignError AssembledState :=
  match st.built with
  | none => .error .notYetSimulatedTx
  | some tx =>
    let afterReadCheck : Except SignError AssembledState :=
      if force then .ok st
      else
        match isReadCall st with
        | .error e => .error (.simData e)
        | .ok (true, _) => .error .noSignatureNeeded
        | .ok (false, st1) => .ok st1
    match afterReadCheck with
    | .error e => .error e
    | .ok st1 =>
      match signTransaction with
      | none => .error .noSigner
      | some f =>
        let sigsNeeded :=
          (nonInvokerSigners false tx).filter (fun id => !(startsWithUpperC id))
        if sigsNeeded.isEmpty then
          match simulationData st1 with
          | .error e => .error (.simData e)
          | .ok (d, st2) =>
            let rebuilt : Tx :=
              { tx with sorobanData := some d.transactionData
                        timeout := opts.timeoutInSeconds.getD DEFAULT_TIMEOUT }
            .ok { st2 with built := some rebuilt, signed := some (f rebuilt) }
        else .error (.needsMoreSignatures sigsNeeded)

/-- Replace the auth entries of a transaction's first (invoke) operation,
leaving everything else unchanged; a transaction whose first operation is not
an invoke-host-function operation carries no auth list and is unchanged. -/
def setAuth (tx : Tx) (auth : List AuthEntry) : Tx :=
  { tx with operations :=
      match tx.operations with
      | Operation.invokeHostFunction m a _ :: rest =>
        Operation.invokeHostFunction m a auth :: rest
      | ops => ops }

/-- Modelled from the spec: the stellar-base `authorizeEntry` collaborator
(external package) produces a signed replacement of an address-credentialed
entry by invoking the signing callback on the entry's preimage, attaching the
resolved expiration ledger; entries without address credentials are returned
unchanged. -/
def stellarBaseAuthorizeEntry (signFn : Nat → Nat) (e : AuthEntry)
    (expiration : Nat) (_network : String) : AuthEntry :=
  match e.credentials with
  | .sourceAccount => e
  | .address addr _ _ =>
    { e with credentials :=
        .address addr (ScVal.scvOther (signFn e.rootInvocation)) expiration }

/-- The errors raised by `signAuthEntries` (source lines 789-884). -/
inductive SignAuthError where
  | notYetAssembled : SignAuthError
  | noUnsignedNonInvokerAuthEntries : SignAuthError
  | noSignatureNeeded : SignAuthError
  | noSigner : SignAuthError
deriving DecidableEq, Repr

/-- The entry-rewriting loop of `signAuthEntries` (source lines 848-883):
entries without address credentials, and entries whose credential address
differs from the target address, are skipped; every matching entry is
replaced by the result of the authorize function. -/
def signAuthEntriesLoop (fn : AuthEntry → AuthEntry) (address : String) :
    List AuthEntry → List AuthEntry :=
  List.map (fun e =>
    match e.credentials with
    | .sourceAccount => e
    | .address a _ _ => if a == address then fn e else e)

/-- `signAuthEntries` (source lines 789-884).  Parameter defaults from the
source: `expiration` defaults to the latest ledger sequence plus 100
(resolved once at call time, hence a single `latestLedger` argument),
`signAuthEntry` to the client option, `address` to the submitter's public
key, and `authorizeEntry` to the stellar-base one (`none` here means the
default was used, mirroring the identity comparison in the source).  When the
default authorize strategy is in use, three checks run first:
`NoUnsignedNonInvokerAuthEntries` when nobody still needs to sign,
`NoSignatureNeeded` when the target address is not in that list, `NoSigner`
when no signing callback is configured.  The source's fallback callback for
the custom-authorize path (`signAuthEntry ?? Promise.resolve`) is the
identity. -/
def signAuthChecksDefault (signAuthEntryCb : Option (Nat → Nat))
    (address : String) (tx : Tx) : Except SignAuthError Unit :=
  let needed := nonInvokerSigners false tx
  if needed.isEmpty then .error .noUnsignedNonInvokerAuthEntries
  else if !(needed.contains address) then .error .noSignatureNeeded
  else if signAuthEntryCb.isNone then .error .noSigner
  else .ok ()

/-- The body of `signAuthEntries` once the finalized transaction and the
resolved parameter defaults are at hand (source lines 822-883): run the
three default-strategy checks unless a custom authorize function was
supplied, then rewrite the matching auth entries in place. -/
def signAuthEntriesOnTx (opts : Options) (st : AssembledState) (tx : Tx)
    (expiration : Nat) (signAuthEntryCb : Option (Nat → Nat))
    (address : String)
    (authorizeEntryArg : Option (AuthEntry → Nat → String → AuthEntry)) :
    Except SignAuthError AssembledState :=
  match (match authorizeEntryArg with
         | some _ => (.ok () : Except SignAuthError Unit)
         | none => signAuthChecksDefault signAuthEntryCb address tx) with
  | .error e => .error e
  | .ok _ =>
    .ok { st with built := some (setAuth tx (signAuthEntriesLoop
        (fun e =>
          (match authorizeEntryArg with
           | some f => f
           | none =>
             stellarBaseAuthorizeEntry (signAuthEntryCb.getD (fun n => n)))
            e expiration opts.networkPassphrase)
        address (authEntriesOf tx))) }

/-- Resolution of the `signAuthEntry` parameter default: the argument when
supplied, else the client option. -/
def resolveSignAuthEntryCb (opts : Options) (arg : Option (Nat → Nat)) :
    Option (Nat → Nat) :=
  match arg with
  | some f => some f
  | none => opts.signAuthEntry

def signAuthEntries (opts : Options) (st : AssembledState)
    (expirationArg : Option Nat) (signAuthEntryArg : Option (Nat → Nat))
    (addressArg : Option String)
    (authorizeEntryArg : Option (AuthEntry → Nat → String → AuthEntry))
    (latestLedger : Nat) : Except SignAuthError AssembledState :=
  match st.built with
  | none => .error .notYetAssembled
  | some tx =>
    signAuthEntriesOnTx opts st tx
      (expirationArg.getD (latestLedger + 100))
      (resolveSignAuthEntryCb opts signAuthEntryArg)
      (addressArg.getD opts.publicKey)
      authorizeEntryArg

/-- The transport-string schema written by `toJSON` (source lines 334-345),
with the base64 wire fields holding the structured values they encode (the
codec is modelled as the identity).  `tx` is optional because the source
writes `this.built?.toXDR()`. -/
structure TxJson where
  method : String
  tx : Option Tx
  simulationResultAuth : List AuthEntry
  simulationResultRetval : ScVal
  simulationTransactionData : SorobanTransactionData
deriving DecidableEq, Repr

/-- `toJSON` (source lines 334-345): serializes the method name, the built
transaction's envelope, and the `simulationData`-derived result and resource
data.  The `simulationData` getter may fail and memoizes, hence the result
also carries the updated state. -/
def toJSON (opts : Options) (st : AssembledState) :
    Except SimDataErr (TxJson × AssembledState) :=
  match simulationData st with
  | .error e => .error e
  | .ok (d, st') =>
    .ok ({ method := opts.method
           tx := st'.built
           simulationResultAuth := d.result.auth
           simulationResultRetval := d.result.retval
           simulationTransactionData := d.transactionData }, st')

/-- `fromJSON` (source lines 347-375): constructs a fresh
AssembledTransaction (the private constructor rejects an empty submitter
identity), decodes the envelope into `built`, and populates the two
simulation-cache fields directly from the blob — the raw simulation response
is never reconstructed. -/
def fromJSON (opts : Options) (j : TxJson) : Except String AssembledState :=
  if opts.publicKey = "" then
    .error ("Public key not provided")
  else
    .ok { raw := none
          built := j.tx
          simulation := none
          simulationResult :=
            some ⟨j.simulationResultAuth, j.simulationResultRetval⟩
          simulationTransactionData := some j.simulationTransactionData
          signed := none }

/-- The environment a `simulate`/restore run consumes: the successive
simulation responses returned by the rpc collaborator, the successive
terminal outcomes of restore submissions (`none` when the submission tracker
never produced a terminal response, `some b` for a terminal response whose
status is successful iff `b`), the current latest ledger sequence, and the
submitter's current sequence number as returned by account lookup. -/
structure Env where
  responses : List SimResponse
  restoreOutcomes : List (Option Bool)
  latestLedger : Nat
  accountSeq : Nat
deriving Repr

/-- Errors surfaced by `simulate` and `restoreFootprint`.  `notAssembled`
is the plain error thrown when neither a draft nor a built transaction
exists; `noSigner` is the plain error `restoreFootprint` throws without a
`signTransaction` callback; `noResponse` stands for the rpc transport
failing to answer (environment exhausted); `outOfFuel` is an artifact of the
fuel-indexed embedding of the recursion. -/
inductive SimErr where
  | notAssembled : SimErr
  | restorationFailure : SimErr
  | noSigner : SimErr
  | noResponse : SimErr
  | outOfFuel : SimErr
deriving DecidableEq, Repr

/-- Modelled from the spec: the external assemble collaborator
(`assembleTransaction` of the rpc module) folds the simulation's resource
footprint, fee and authorization requirements back into the built
transaction. -/
def assembleTransaction (tx : Tx) (result : Option SimulateHostFunctionResult)
    (txData : SorobanTransactionData) : Tx :=
  setAuth { tx with sorobanData := some txData }
    ((result.map (fun r => r.auth)).getD (authEntriesOf tx))

/-- The draft built by `build` (source lines 462-467) and by the
rebuild-after-restore step (source lines 519-531): one invoke-host-function
operation with the requested method and arguments, the option fee or the base
fee, and the option timeout or the default. -/
def contractCallTx (opts : Options) (account : Account) : Tx :=
  { source := account.accountId
    seqNum := account.sequence + 1
    fee := opts.fee.getD BASE_FEE
    operations := [Operation.invokeHostFunction opts.method opts.args []]
    sorobanData := none
    timeout := opts.timeoutInSeconds.getD DEFAULT_TIMEOUT }

/-- The draft of the dedicated restore-footprint transaction built by
`buildFootprintRestoreTransaction` (source lines 475-491): the given account,
the restore preamble's minimum resource fee, the given Soroban resource data,
and a single restore-footprint operation. -/
def footprintRestoreDraft (opts : Options)
    (sorobanData : SorobanTransactionData) (account : Account) (fee : String) :
    Tx :=
  { source := account.accountId
    seqNum := account.sequence + 1
    fee := fee
    operations := [Operation.restoreFootprintOp]
    sorobanData := some sorobanData
    timeout := opts.timeoutInSeconds.getD DEFAULT_TIMEOUT }

/-- Modelled from the spec: `getAccount` (utils collaborator) fetches the
submitter's account with its current sequence number. -/
def getAccount (opts : Options) (env : Env) : Account :=
  ⟨opts.publicKey, env.accountSeq⟩

mutual

/-- `simulate` (source lines 493-548), indexed by fuel to embed the
recursion.  Returns the outcome, the remaining environment, and the number of
restore attempts performed (invocations of `restoreFootprint` from the
restore branch, summed through the recursion).  Faithful details: the draft
is only built when no built transaction exists yet; the effective restore
flag is the argument if supplied, else `options.restore`; both cache fields
are cleared before the new response is stored; after a successful restore the
draft is rebuilt from the fetched account and `simulate()` recurses with no
restore argument; an error-shaped response is stored without raising (only
later `simulationData` access fails); a success-shaped response is folded
into the built transaction by the assemble collaborator. -/
def simulateFuel : Nat → Options → AssembledState → Env → Option Bool →
    Except SimErr AssembledState × Env × Nat
  | 0, _, _, env, _ => (.error .outOfFuel, env, 0)
  | Nat.succ fuel, opts, st, env, restoreArg =>
    match (match st.built with | some b => some b | none => st.raw) with
    | none => (.error .notAssembled, env, 0)
    | some built0 =>
      let restore := restoreArg.getD opts.restore
      match env.responses with
      | [] => (.error .noResponse, env, 0)
      | resp :: rest =>
        let env1 : Env := { env with responses := rest }
        let st1 : AssembledState :=
          { st with built := some built0
                    simulationResult := none
                    simulationTransactionData := none
                    simulation := some resp }
        match resp, restore with
        | .restoreRequired preamble, true =>
          let account := getAccount opts env1
          match restoreFootprintFuel fuel opts preamble (some account) env1 with
          | (.error e, env2, n) => (.error e, env2, 1 + n)
          | (.ok status, env2, n) =>
            if status then
              let st2 : AssembledState :=
                { st1 with raw := some (contractCallTx opts account) }
              match simulateFuel fuel opts st2 env2 none with
              | (r, env3, n2) => (r, env3, 1 + n + n2)
            else (.error .restorationFailure, env2, 1 + n)
        | .restoreRequired _, false => (.ok st1, env1, 0)
        | .error _, _ => (.ok st1, env1, 0)
        | .success result txData, _ =>
          (.ok { st1 with
              built := some (assembleTransaction built0 result txData) },
            env1, 0)

/-- `restoreFootprint` (source lines 921-951), indexed by fuel.  Requires a
`signTransaction` callback; defaults the account to a fresh account lookup;
builds the dedicated restore transaction and simulates it with the restore
flag explicitly false (source line 489); then signs and submits it — the
submission tracker is outside the analysed sources, so its terminal outcome
is drawn from the environment: no terminal response raises
`RestorationFailure`, a terminal response yields its success status. -/
def restoreFootprintFuel : Nat → Options → RestorePreamble → Option Account →
    Env → Except SimErr Bool × Env × Nat
  | 0, _, _, _, env => (.error .outOfFuel, env, 0)
  | Nat.succ fuel, opts, preamble, accountArg, env =>
    match opts.signTransaction with
    | none => (.error .noSigner, env, 0)
    | some _ =>
      let account := accountArg.getD (getAccount opts env)
      let restoreSt : AssembledState :=
        { emptyState with
            raw := some (footprintRestoreDraft opts preamble.transactionData
              account preamble.minResourceFee) }
      match simulateFuel fuel opts restoreSt env (some false) with
      | (.error e, env1, n) => (.error e, env1, n)
      | (.ok _, env1, n) =>
        match env1.restoreOutcomes with
        | [] => (.error .noResponse, env1, n)
        | outcome :: rest =>
          let env2 : Env := { env1 with restoreOutcomes := rest }
          match outcome with
          | none => (.error .restorationFailure, env2, n)
          | some b => (.ok b, env2, n)

end

/-- `buildFootprintRestoreTransaction` (source lines 475-491), indexed by
fuel: a fresh AssembledTransaction whose draft is the restore-footprint
transaction, simulated with the restore flag explicitly false. -/
def buildFootprintRestoreTransactionFuel (fuel : Nat) (opts : Options)
    (sorobanData : SorobanTransactionData) (account : Account) (fee : String)
    (env : Env) : Except SimErr AssembledState × Env × Nat :=
  simulateFuel fuel opts
    { emptyState with
        raw := some (footprintRestoreDraft opts sorobanData account fee) }
    env (some false)

/-- When the effective restore flag is false, `simulate` never enters the
restore branch, so it performs no restore attempt. -/
theorem simulateFuel_count_flag_false (fuel : Nat) (opts : Options)
    (st : AssembledState) (env : Env) (rArg : Option Bool)
    (h : rArg.getD opts.restore = false) :
    (simulateFuel fuel opts st env rArg).2.2 = 0 := by
  cases fuel with
  | zero => rfl
  | succ fuel =>
    rw [simulateFuel]
    split
    · rfl
    · simp only [h]
      split
      · rfl
      · split <;> simp_all

/-- `restoreFootprint` simulates the dedicated restore transaction with the
restore flag explicitly false, so it performs no restore attempt of its own. -/
theorem restoreFootprintFuel_count (fuel : Nat) (opts : Options)
    (p : RestorePreamble) (acc : Option Account) (env : Env) :
    (restoreFootprintFuel fuel opts p acc env).2.2 = 0 := by
  cases fuel with
  | zero => rfl
  | succ fuel =>
    rw [restoreFootprintFuel]
    cases opts.signTransaction with
    | none => rfl
    | some f =>
      simp only
      have h0 := simulateFuel_count_flag_false fuel opts
        { emptyState with
            raw := some (footprintRestoreDraft opts p.transactionData
              ((acc.getD (getAccount opts env))) p.minResourceFee) }
        env (some false) rfl
      split
      next e env1 n heq => rw [heq] at h0; exact h0
      next env1 n heq =>
        rw [heq] at h0
        split
        · exact h0
        · split <;> exact h0

/-- Specialization: a recursive `simulate()` call passes no restore argument,
so with `options.restore` false it performs no restore attempt. -/
theorem simulateFuel_count_noArg (fuel : Nat) (opts : Options)
    (st : AssembledState) (env : Env) (h : opts.restore = false) :
    (simulateFuel fuel opts st env none).2.2 = 0 :=
  simulateFuel_count_flag_false fuel opts st env none h

/-- When `options.restore` is false, one `simulate` invocation performs at
most one restore attempt, whatever restore argument it is given. -/
theorem simulateFuel_count_le_one (fuel : Nat) (opts : Options)
    (st : AssembledState) (env : Env) (rArg : Option Bool)
    (h : opts.restore = false) :
    (simulateFuel fuel opts st env rArg).2.2 ≤ 1 := by
  cases fuel with
  | zero => simp [simulateFuel]
  | succ fuel =>
    rw [simulateFuel]
    split
    · simp
    · simp only
      split
      · simp
      · split
        · split
          next e env2 n heq =>
            have hn := congrArg (fun t => t.2.2) heq
            dsimp only at hn
            rw [restoreFootprintFuel_count] at hn
            show 1 + n ≤ 1
            omega
          next status env2 n heq =>
            have hn := congrArg (fun t => t.2.2) heq
            dsimp only at hn
            rw [restoreFootprintFuel_count] at hn
            by_cases hstatus : status = true
            · simp only [hstatus, if_true]
              rw [simulateFuel_count_noArg _ _ _ _ h]
              show 1 + n + 0 ≤ 1
              omega
            · simp only [hstatus, if_false]
              show 1 + n ≤ 1
              omega
        · simp
        · simp
        · simp

/-- Concrete resource data with one read-write footprint entry. -/
def exTxData : SorobanTransactionData := ⟨[], [1], 5⟩

/-- Concrete restore preamble. -/
def exPreamble : RestorePreamble := ⟨"50", exTxData⟩

/-- Concrete options with automatic restore enabled in the method options and
a working envelope signer. -/
def exOptsAutoRestore : Options :=
  { contractId := "CEXAMPLE", method := "swap", args := [ScVal.scvOther 3]
    publicKey := "GALICE", networkPassphrase := "testnet", fee := none
    timeoutInSeconds := none, restore := true
    signTransaction := some (fun t => t), signAuthEntry := some (fun n => n + 1) }

/-- The same options with automatic restore left unset. -/
def exOptsNoRestore : Options := { exOptsAutoRestore with restore := false }

/-- A freshly built draft for those options. -/
def exDraftState : AssembledState :=
  { emptyState with raw := some (contractCallTx exOptsAutoRestore ⟨"GALICE", 7⟩) }

/-- An environment whose simulation keeps demanding restoration: the main
call's first two simulations are restore-required (each followed by the
restore transaction's own successful simulation), the third succeeds, and
both restore submissions reach a successful terminal state. -/
def exEnvTwoRestores : Env :=
  { responses := [ SimResponse.restoreRequired exPreamble
                 , SimResponse.success none exTxData
                 , SimResponse.restoreRequired exPreamble
                 , SimResponse.success none exTxData
                 , SimResponse.success none exTxData ]
    restoreOutcomes := [some true, some true]
    latestLedger := 1000
    accountSeq := 7 }

/-- C1 counterexample: with `restore: true` set in the method options (the
documented way to request automatic restore), a single `simulate` invocation
performs TWO restore attempts when the re-simulation after the first
successful restore again returns a restore-required response — the recursive
`simulate()` call passes no restore argument and falls back to
`options.restore`, so the claimed single-shot bound fails. -/
theorem simulate_restore_single_shot_counterexample :
    exOptsAutoRestore.restore = true ∧
    (simulateFuel 10 exOptsAutoRestore exDraftState exEnvTwoRestores none).2.2
      = 2 :=
  ⟨rfl, rfl⟩

/-- C1 (amended): a single `simulate` invocation performs at most one
automatic restore-and-resimulate provided automatic restore was requested via
the explicit `simulate` argument with `options.restore` unset; the recursive
re-simulation passes no restore argument, falls back to `options.restore`,
and therefore attempts no further restore. -/
theorem simulate_restore_single_shot_amended (fuel : Nat) (opts : Options)
    (st : AssembledState) (env : Env) (rArg : Option Bool)
    (h : opts.restore = false) :
    (simulateFuel fuel opts st env rArg).2.2 ≤ 1 :=
  simulateFuel_count_le_one fuel opts st env rArg h

/-- Witness for the amended C1 theorem at a concrete input: restore requested
via the argument, options flag unset, same restore-hungry environment. -/
theorem simulate_restore_single_shot_amended_witness :
    exOptsNoRestore.restore = false ∧
    (simulateFuel 10 exOptsNoRestore exDraftState exEnvTwoRestores
      (some true)).2.2 ≤ 1 :=
  ⟨rfl, simulate_restore_single_shot_amended 10 exOptsNoRestore exDraftState
    exEnvTwoRestores (some true) rfl⟩

/-- C3: `simulationData` returns the memoized pair when both cache fields are
populated (without consulting the raw simulation); otherwise it fails with
`NotYetSimulated` when no raw simulation is present, `SimulationFailed` when
the raw response was an error, `ExpiredState` when it was restore-required,
and otherwise derives and memoizes the cache, substituting an
empty-authorization/void-return result when the response carried no result;
and a successful access is idempotent: repeated access without an intervening
simulate returns identical values. -/
theorem simulationData_spec (st : AssembledState) :
    (∀ r d, st.simulationResult = some r →
      st.simulationTransactionData = some d →
      simulationData st = .ok (⟨r, d⟩, st)) ∧
    ((st.simulationResult = none ∨ st.simulationTransactionData = none) →
      (st.simulation = none →
        simulationData st = .error .notYetSimulated) ∧
      (∀ msg, st.simulation = some (.error msg) →
        simulationData st = .error (.simulationFailed msg)) ∧
      (∀ p, st.simulation = some (.restoreRequired p) →
        simulationData st = .error .expiredState) ∧
      (∀ res td, st.simulation = some (.success res td) →
        simulationData st =
          .ok (⟨res.getD ⟨[], ScVal.scvVoid⟩, td⟩,
            { st with
                simulationResult := some (res.getD ⟨[], ScVal.scvVoid⟩)
                simulationTransactionData := some td }))) ∧
    (∀ d st', simulationData st = .ok (d, st') →
      simulationData st' = .ok (d, st')) := by
  refine ⟨fun r d hr hd => simulationData_cached st r d hr hd, fun hmiss => ?_,
    fun d st' h => simulationData_idem st st' d h⟩
  have hred : simulationData st =
      (match st.simulation with
       | none => .error .notYetSimulated
       | some (.error msg) => .error (.simulationFailed msg)
       | some (.restoreRequired _) => .error .expiredState
       | some (.success result txData) =>
         let r := result.getD ⟨[], ScVal.scvVoid⟩
         .ok (⟨r, txData⟩,
           { st with simulationResult := some r
                     simulationTransactionData := some txData })) := by
    unfold simulationData
    rcases hr : st.simulationResult with _ | r <;>
      rcases hd : st.simulationTransactionData with _ | dt <;> try rfl
    rcases hmiss with hm | hm
    · rw [hr] at hm; cases hm
    · rw [hd] at hm; cases hm
  refine ⟨fun hs => ?_, fun msg hs => ?_, fun p hs => ?_, fun res td hs => ?_⟩ <;>
    rw [hred, hs]

/-- A state holding a raw successful simulation that reported no result. -/
def exRawSimState : AssembledState :=
  { emptyState with simulation := some (SimResponse.success none exTxData) }

/-- The same state after `simulationData` memoized the defaulted result. -/
def exCachedSimState : AssembledState :=
  { exRawSimState with
      simulationResult := some ⟨[], ScVal.scvVoid⟩
      simulationTransactionData := some exTxData }

/-- Witness for C3 at a concrete state: deriving defaults the void result and
memoizes, and a repeated access returns the identical pair. -/
theorem simulationData_spec_witness :
    simulationData exRawSimState =
      .ok (⟨⟨[], ScVal.scvVoid⟩, exTxData⟩, exCachedSimState) ∧
    simulationData exCachedSimState =
      .ok (⟨⟨[], ScVal.scvVoid⟩, exTxData⟩, exCachedSimState) := by
  have h := (simulationData_spec exRawSimState).2.1 (Or.inl rfl)
  have h1 := h.2.2.2 none exTxData rfl
  exact ⟨h1, (simulationData_spec exRawSimState).2.2 _ _ h1⟩

/-- `simulationData` only touches the two cache fields: the built
transaction is unchanged. -/
theorem simulationData_preserves_built (st st' : AssembledState) (d : SimData)
    (h : simulationData st = .ok (d, st')) : st'.built = st.built := by
  unfold simulationData at h
  rcases hr : st.simulationResult with _ | r <;>
    rcases hd : st.simulationTransactionData with _ | dt <;>
      simp only [hr, hd] at h
  case none.none | some.none | none.some =>
    rcases hs : st.simulation with _ | (msg | p | ⟨res, txd⟩) <;>
        simp only [hs] at h
    · cases h
    · cases h
    · cases h
    · injection h with h; injection h with h1 h2
      rw [← h2]
  case some.some =>
    injection h with h; injection h with h1 h2
    rw [← h2]

/-- C2: for a finalized, successfully simulated call, deserializing the
serialization (`fromJSON` of `toJSON`, same construction options) yields a
call whose `simulationData` pair equals the original's and whose decoded
envelope is the original built transaction. -/
theorem toJSON_fromJSON_roundtrip (opts : Options) (st : AssembledState)
    (tx : Tx) (j : TxJson) (st' : AssembledState)
    (hpk : ¬ opts.publicKey = "")
    (hbuilt : st.built = some tx)
    (hj : toJSON opts st = .ok (j, st')) :
    ∃ st2 d, fromJSON opts j = .ok st2 ∧
      simulationData st = .ok (d, st') ∧
      st2.built = some tx ∧
      simulationData st2 = .ok (d, st2) := by
  unfold toJSON at hj
  rcases hsd : simulationData st with e | p
  · rw [hsd] at hj; cases hj
  · rcases p with ⟨d, stm⟩
    rw [hsd] at hj
    injection hj with hj
    injection hj with hj1 hj2
    subst hj2
    subst hj1
    have hbuilt2 : stm.built = some tx := by
      rw [simulationData_preserves_built st stm d hsd, hbuilt]
    refine ⟨{ raw := none, built := stm.built, simulation := none
              simulationResult := some ⟨d.result.auth, d.result.retval⟩
              simulationTransactionData := some d.transactionData
              signed := none }, d, ?_, rfl, ?_, ?_⟩
    · unfold fromJSON
      rw [if_neg hpk]
    · exact hbuilt2
    · exact simulationData_cached _ ⟨d.result.auth, d.result.retval⟩
        d.transactionData rfl rfl

/-- Witness for C2 at a concrete finalized, successfully simulated call. -/
theorem toJSON_fromJSON_roundtrip_witness :
    ∃ j st', toJSON exOptsNoRestore
        { exRawSimState with built := some (contractCallTx exOptsNoRestore ⟨"GALICE", 7⟩) }
        = .ok (j, st') ∧
      ∃ st2 d, fromJSON exOptsNoRestore j = .ok st2 ∧
        simulationData
          { exRawSimState with built := some (contractCallTx exOptsNoRestore ⟨"GALICE", 7⟩) }
          = .ok (d, st') ∧
        st2.built = some (contractCallTx exOptsNoRestore ⟨"GALICE", 7⟩) ∧
        simulationData st2 = .ok (d, st2) := by
  refine ⟨_, _, rfl, ?_⟩
  exact toJSON_fromJSON_roundtrip exOptsNoRestore _
    (contractCallTx exOptsNoRestore ⟨"GALICE", 7⟩) _ _
    (by decide) rfl rfl

/-- Widening the filter: an entry contributing its address with
`includeAlreadySigned` off still contributes it with the flag on. -/
theorem entryContributes_mono (e : AuthEntry) (x : String)
    (h : entryContributes false e = some x) :
    entryContributes true e = some x := by
  unfold entryContributes at h ⊢
  rcases e with ⟨creds, inv⟩
  rcases creds with _ | ⟨addr, sig, exp⟩
  · cases h
  · simp only [Bool.false_or, Bool.true_or, if_true] at h ⊢
    split at h
    · exact h
    · cases h

/-- C4: for a finalized call, `needsNonInvokerSigningBy` returns the
duplicate-free list of addresses contributed by the sole operation's auth
entries — an entry contributes exactly when its credential kind is
address-based and (unless `includeAlreadySigned`) its signature slot is still
void; without a finalized transaction both calls fail with `NotYetBuilt`;
and the `includeAlreadySigned = true` result is a superset of the
`includeAlreadySigned = false` result. -/
theorem needsNonInvokerSigningBy_spec (st : AssembledState) :
    (st.built = none →
      needsNonInvokerSigningBy false st = .error .notYetBuilt ∧
      needsNonInvokerSigningBy true st = .error .notYetBuilt) ∧
    (∀ tx inc, st.built = some tx →
      ∃ l, needsNonInvokerSigningBy inc st = .ok l ∧ l.Nodup ∧
        ∀ x, x ∈ l ↔ ∃ e ∈ authEntriesOf tx, entryContributes inc e = some x) ∧
    (∀ tx l₀ l₁, st.built = some tx →
      needsNonInvokerSigningBy false st = .ok l₀ →
      needsNonInvokerSigningBy true st = .ok l₁ →
      ∀ x, x ∈ l₀ → x ∈ l₁) := by
  refine ⟨fun hnone => ?_, fun tx inc hsome => ?_, fun tx l₀ l₁ hsome h₀ h₁ x hx => ?_⟩
  · unfold needsNonInvokerSigningBy
    rw [hnone]
    exact ⟨rfl, rfl⟩
  · refine ⟨nonInvokerSigners inc tx, ?_, nodup_dedupFirst _, fun x => ?_⟩
    · unfold needsNonInvokerSigningBy
      rw [hsome]
    · unfold nonInvokerSigners
      rw [mem_dedupFirst, List.mem_filterMap]
  · unfold needsNonInvokerSigningBy at h₀ h₁
    rw [hsome] at h₀ h₁
    injection h₀ with h₀
    injection h₁ with h₁
    subst h₀; subst h₁
    unfold nonInvokerSigners at hx ⊢
    rw [mem_dedupFirst, List.mem_filterMap] at hx ⊢
    rcases hx with ⟨e, he, hc⟩
    exact ⟨e, he, entryContributes_mono e x hc⟩

/-- Auth entries used by the witnesses: a source-account entry, an unsigned
entry for one party (twice, exercising deduplication), an already signed
entry for another, and an unsigned contract-address entry. -/
def exAuthEntries : List AuthEntry :=
  [ ⟨SorobanCredentials.sourceAccount, 0⟩
  , ⟨SorobanCredentials.address ("GBOB") ScVal.scvVoid 0, 1⟩
  , ⟨SorobanCredentials.address ("GCAROL") (ScVal.scvOther 9) 0, 2⟩
  , ⟨SorobanCredentials.address ("GBOB") ScVal.scvVoid 0, 3⟩
  , ⟨SorobanCredentials.address ("CTOKEN") ScVal.scvVoid 0, 4⟩ ]

/-- A finalized transaction carrying those auth entries. -/
def exBuiltTx : Tx :=
  { source := "GALICE", seqNum := 8, fee := "100"
    operations := [Operation.invokeHostFunction ("swap") [] exAuthEntries]
    sorobanData := some exTxData, timeout := 300 }

/-- A finalized, successfully simulated state carrying those auth entries. -/
def exBuiltState : AssembledState :=
  { exRawSimState with built := some exBuiltTx }

/-- Witness for C4 at a concrete finalized call. -/
theorem needsNonInvokerSigningBy_spec_witness :
    ∃ l, needsNonInvokerSigningBy false exBuiltState = .ok l ∧ l.Nodup ∧
      ∀ x, x ∈ l ↔
        ∃ e ∈ authEntriesOf exBuiltTx, entryContributes false e = some x :=
  (needsNonInvokerSigningBy_spec exBuiltState).2.1 exBuiltTx false rfl

/-- C6: for a call with available `simulationData`, `isReadCall` is true iff
the simulation result has zero authorization entries and the resource data's
footprint has zero read-write entries; it is a pure function of the
simulation-data pair, so two calls with identical pairs agree regardless of
construction path. -/
theorem isReadCall_spec (st₁ st₂ : AssembledState) (d : SimData)
    (t₁ t₂ : AssembledState)
    (h₁ : simulationData st₁ = .ok (d, t₁))
    (h₂ : simulationData st₂ = .ok (d, t₂)) :
    isReadCall st₁ = .ok (isReadCallOf d, t₁) ∧
    isReadCall st₂ = .ok (isReadCallOf d, t₂) ∧
    (isReadCallOf d = true ↔
      d.result.auth = [] ∧ d.transactionData.readWrite = []) := by
  unfold isReadCall
  rw [h₁, h₂]
  refine ⟨rfl, rfl, ?_⟩
  unfold isReadCallOf
  simp [List.length_eq_zero]

/-- Witness for C6: the derived and the memoized state hold the same pair, so
both report the same (here false: one read-write footprint entry) answer. -/
theorem isReadCall_spec_witness :
    isReadCall exRawSimState = .ok (false, exCachedSimState) ∧
    isReadCall exCachedSimState = .ok (false, exCachedSimState) ∧
    (isReadCallOf ⟨⟨[], ScVal.scvVoid⟩, exTxData⟩ = true ↔
      (⟨⟨[], ScVal.scvVoid⟩, exTxData⟩ : SimData).result.auth = [] ∧
      (⟨⟨[], ScVal.scvVoid⟩, exTxData⟩ : SimData).transactionData.readWrite
        = []) :=
  isReadCall_spec exRawSimState exCachedSimState ⟨⟨[], ScVal.scvVoid⟩, exTxData⟩
    exCachedSimState exCachedSimState rfl rfl

/-- C5: for a finalized, successfully simulated call, `sign` fails with
`NoSignatureNeeded` when the call is a read call and `force` is not set;
fails with `NoSigner` when no envelope-signing callback is available; fails
with `NeedsMoreSignatures` exactly when (the earlier checks passing) some
non-submitter, non-contract (identity not starting with C) address still has
an unsigned address-credentialed auth entry; and otherwise re-finalizes the
transaction (resource data pinned from `simulationData`, fresh timeout) and
stores the decoded callback result as the signed envelope. -/
theorem sign_spec (force : Bool) (sigTr : Option (Tx → Tx)) (opts : Options)
    (st : AssembledState) (tx : Tx) (d : SimData) (st' : AssembledState)
    (hbuilt : st.built = some tx)
    (hsd : simulationData st = .ok (d, st')) :
    (force = false → isReadCallOf d = true →
      sign force sigTr opts st = .error .noSignatureNeeded) ∧
    ((force = true ∨ isReadCallOf d = false) → sigTr = none →
      sign force sigTr opts st = .error .noSigner) ∧
    (∀ f, (force = true ∨ isReadCallOf d = false) → sigTr = some f →
      (nonInvokerSigners false tx).filter (fun id => !(startsWithUpperC id))
        ≠ [] →
      sign force sigTr opts st = .error (.needsMoreSignatures
        ((nonInvokerSigners false tx).filter
          (fun id => !(startsWithUpperC id))))) ∧
    (∀ f, (force = true ∨ isReadCallOf d = false) → sigTr = some f →
      (nonInvokerSigners false tx).filter (fun id => !(startsWithUpperC id))
        = [] →
      sign force sigTr opts st =
        .ok { st' with
            built := some { tx with
              sorobanData := some d.transactionData
              timeout := opts.timeoutInSeconds.getD DEFAULT_TIMEOUT }
            signed := some (f { tx with
              sorobanData := some d.transactionData
              timeout := opts.timeoutInSeconds.getD DEFAULT_TIMEOUT }) }) := by
  have hread : isReadCall st = .ok (isReadCallOf d, st') := by
    unfold isReadCall; rw [hsd]
  have hidem := simulationData_idem st st' d hsd
  refine ⟨?_, ?_, ?_, ?_⟩
  · rintro rfl htrue
    unfold sign
    rw [hbuilt]
    simp only [Bool.false_eq_true, if_false, hread, htrue]
  · rintro hforce rfl
    unfold sign
    rw [hbuilt]
    cases force with
    | true => rfl
    | false =>
      rcases hforce with h | hfalse
      · cases h
      · simp [hread, hfalse]
  · intro f hforce hf hne
    subst hf
    unfold sign
    rw [hbuilt]
    cases force with
    | true => simp [hne]
    | false =>
      rcases hforce with h | hfalse
      · cases h
      · simp [hread, hfalse, hne]
  · intro f hforce hf hnil
    subst hf
    unfold sign
    rw [hbuilt]
    cases force with
    | true => simp [hnil, hsd]
    | false =>
      rcases hforce with h | hfalse
      · cases h
      · simp [hread, hfalse, hnil, hidem]

/-- The built-and-simulated fixture after `simulationData` memoized. -/
def exCachedBuiltState : AssembledState :=
  { exBuiltState with
      simulationResult := some ⟨[], ScVal.scvVoid⟩
      simulationTransactionData := some exTxData }

/-- The non-invoker signer list of the fixture transaction: the two unsigned
address-credentialed parties, first-occurrence deduplicated. -/
theorem exBuiltTx_signers :
    nonInvokerSigners false exBuiltTx = ["GBOB", "CTOKEN"] := by
  simp [nonInvokerSigners, authEntriesOf, exBuiltTx, exAuthEntries,
    entryContributes, dedupFirst]

/-- Witness for C5 at the fixture call (not a read call: one read-write
footprint entry): without a callback `sign` fails with `NoSigner`; with a
callback it fails with `NeedsMoreSignatures` naming the unsigned
non-contract party. -/
theorem sign_spec_witness :
    sign false none exOptsNoRestore exBuiltState = .error .noSigner ∧
    sign false (some (fun t => t)) exOptsNoRestore exBuiltState =
      .error (.needsMoreSignatures ["GBOB"]) := by
  have hfilter : (nonInvokerSigners false exBuiltTx).filter
      (fun id => !(startsWithUpperC id)) = ["GBOB"] := by
    rw [exBuiltTx_signers]; decide
  constructor
  · exact (sign_spec false none exOptsNoRestore exBuiltState exBuiltTx
      ⟨⟨[], ScVal.scvVoid⟩, exTxData⟩ exCachedBuiltState rfl rfl).2.1
      (Or.inr rfl) rfl
  · have h := (sign_spec false (some (fun t => t)) exOptsNoRestore exBuiltState
      exBuiltTx ⟨⟨[], ScVal.scvVoid⟩, exTxData⟩ exCachedBuiltState rfl
      rfl).2.2.1 (fun t => t) (Or.inr rfl) rfl
    rw [hfilter] at h
    exact h (by simp)

/-- C10: for a finalized, non-read (or force-signed) call with no
envelope-signing callback, `sign` fails with `NoSigner` even when
non-submitter parties still have unsigned auth entries: the missing-signer
check runs before the outstanding-signatures check, so `NeedsMoreSignatures`
is only raised when a signing callback is present. -/
theorem sign_noSigner_before_needsMoreSignatures (force : Bool)
    (opts : Options) (st : AssembledState) (tx : Tx) (d : SimData)
    (st' : AssembledState)
    (hbuilt : st.built = some tx)
    (hsd : simulationData st = .ok (d, st'))
    (hforce : force = true ∨ isReadCallOf d = false)
    (_hne : (nonInvokerSigners false tx).filter
      (fun id => !(startsWithUpperC id)) ≠ []) :
    sign force none opts st = .error .noSigner := by
  have hread : isReadCall st = .ok (isReadCallOf d, st') := by
    unfold isReadCall; rw [hsd]
  unfold sign
  rw [hbuilt]
  cases force with
  | true => rfl
  | false =>
    rcases hforce with h | hfalse
    · cases h
    · simp [hread, hfalse]

/-- Witness for C10 at the fixture call: an unsigned non-contract party
exists, yet the failure is `NoSigner`, not `NeedsMoreSignatures`. -/
theorem sign_noSigner_before_needsMoreSignatures_witness :
    sign false none exOptsNoRestore exBuiltState = .error .noSigner :=
  sign_noSigner_before_needsMoreSignatures false exOptsNoRestore exBuiltState
    exBuiltTx ⟨⟨[], ScVal.scvVoid⟩, exTxData⟩ exCachedBuiltState rfl rfl
    (Or.inr rfl)
    (by rw [exBuiltTx_signers]; decide)

/-- The auth-entry list of a transaction after its first operation's entries
are replaced by a map over them. -/
theorem authEntriesOf_setAuth (tx : Tx) (g : AuthEntry → AuthEntry) :
    authEntriesOf (setAuth tx (List.map g (authEntriesOf tx))) =
      List.map g (authEntriesOf tx) := by
  unfold authEntriesOf setAuth
  rcases tx.operations with _ | ⟨op, rest⟩
  · rfl
  · rcases op with ⟨m, a, auth⟩ | _ <;> rfl

/-- Specialization of `authEntriesOf_setAuth` to the rewriting loop. -/
theorem authEntriesOf_setAuth_loop (tx : Tx) (fn : AuthEntry → AuthEntry)
    (address : String) :
    authEntriesOf
        (setAuth tx (signAuthEntriesLoop fn address (authEntriesOf tx))) =
      signAuthEntriesLoop fn address (authEntriesOf tx) :=
  authEntriesOf_setAuth tx _

/-- A position holding an entry that is not address-credentialed for the
target address is untouched by the rewriting loop. -/
theorem signAuthEntriesLoop_frame (fn : AuthEntry → AuthEntry)
    (address : String) (l : List AuthEntry) (i : Nat) (e : AuthEntry)
    (hi : l[i]? = some e)
    (hnm : ∀ a sig exp, e.credentials = .address a sig exp → a ≠ address) :
    (signAuthEntriesLoop fn address l)[i]? = some e := by
  unfold signAuthEntriesLoop
  rw [List.getElem?_map, hi]
  rcases hc : e.credentials with _ | ⟨a, sig, exp⟩
  · simp [hc]
  · have hne := hnm a sig exp hc
    simp [hc, hne]

/-- The rewriting loop preserves the number of entries. -/
theorem signAuthEntriesLoop_length (fn : AuthEntry → AuthEntry)
    (address : String) (l : List AuthEntry) :
    (signAuthEntriesLoop fn address l).length = l.length :=
  List.length_map _ _

/-- A successful `signAuthEntriesOnTx` stores exactly the rewritten entry
list on the built transaction. -/
theorem signAuthEntriesOnTx_ok (opts : Options) (st : AssembledState)
    (tx : Tx) (expiration : Nat) (cb : Option (Nat → Nat)) (address : String)
    (authz : Option (AuthEntry → Nat → String → AuthEntry))
    (st' : AssembledState)
    (hok : signAuthEntriesOnTx opts st tx expiration cb address authz
      = .ok st') :
    st' = { st with built := some (setAuth tx (signAuthEntriesLoop
        (fun e =>
          (match authz with
           | some f => f
           | none => stellarBaseAuthorizeEntry (cb.getD (fun n => n)))
            e expiration opts.networkPassphrase)
        address (authEntriesOf tx))) } := by
  unfold signAuthEntriesOnTx at hok
  split at hok
  · cases hok
  · injection hok with hok
    exact hok.symm

/-- C7: a successful `signAuthEntries` replaces only entries whose credential
is address-based with the target address; every other entry of the operation
is identical (position by position) before and after the call. -/
theorem signAuthEntries_frame (opts : Options) (st : AssembledState)
    (expirationArg : Option Nat) (signAuthEntryArg : Option (Nat → Nat))
    (addressArg : Option String)
    (authorizeEntryArg : Option (AuthEntry → Nat → String → AuthEntry))
    (latestLedger : Nat) (tx : Tx) (st' : AssembledState)
    (hbuilt : st.built = some tx)
    (hok : signAuthEntries opts st expirationArg signAuthEntryArg addressArg
      authorizeEntryArg latestLedger = .ok st') :
    ∃ tx', st'.built = some tx' ∧
      (authEntriesOf tx').length = (authEntriesOf tx).length ∧
      ∀ (i : Nat) (e : AuthEntry), (authEntriesOf tx)[i]? = some e →
        (∀ (a : String) (sig : ScVal) (exp : Nat),
          e.credentials = SorobanCredentials.address a sig exp →
          a ≠ addressArg.getD opts.publicKey) →
        (authEntriesOf tx')[i]? = some e := by
  unfold signAuthEntries at hok
  rw [hbuilt] at hok
  have h := signAuthEntriesOnTx_ok _ _ _ _ _ _ _ _ hok
  subst h
  refine ⟨_, rfl, ?_, ?_⟩
  · rw [authEntriesOf_setAuth_loop]
    exact signAuthEntriesLoop_length _ _ _
  · intro i e hi hnm
    rw [authEntriesOf_setAuth_loop]
    exact signAuthEntriesLoop_frame _ _ _ i e hi hnm

/-- A custom authorize function used by witnesses: signs an
address-credentialed entry with a fixed signature and the given expiration. -/
def exAuthorizeFn : AuthEntry → Nat → String → AuthEntry :=
  fun e exp _ =>
    { e with credentials :=
        match e.credentials with
        | SorobanCredentials.address a _ _ =>
          SorobanCredentials.address a (ScVal.scvOther 42) exp
        | c => c }

/-- The fixture state after `signAuthEntries` for GBOB with the custom
authorize function. -/
def exSignedAuthState : AssembledState :=
  { exBuiltState with built := some (setAuth exBuiltTx
      (signAuthEntriesLoop
        (fun e => exAuthorizeFn e (1000 + 100) exOptsNoRestore.networkPassphrase)
        ("GBOB") (authEntriesOf exBuiltTx))) }

/-- Witness for C7 at the fixture call, target GBOB: every non-GBOB entry
(by position) is unchanged. -/
theorem signAuthEntries_frame_witness :
    ∃ tx', exSignedAuthState.built = some tx' ∧
      (authEntriesOf tx').length = (authEntriesOf exBuiltTx).length ∧
      ∀ (i : Nat) (e : AuthEntry), (authEntriesOf exBuiltTx)[i]? = some e →
        (∀ (a : String) (sig : ScVal) (exp : Nat),
          e.credentials = SorobanCredentials.address a sig exp →
          a ≠ (Option.getD (some ("GBOB")) exOptsNoRestore.publicKey)) →
        (authEntriesOf tx')[i]? = some e :=
  signAuthEntries_frame exOptsNoRestore exBuiltState none none (some ("GBOB"))
    (some exAuthorizeFn) 1000 exBuiltTx exSignedAuthState rfl rfl

/-- First default check: nobody needs to sign. -/
theorem signAuthChecksDefault_empty (cb : Option (Nat → Nat)) (addr : String)
    (tx : Tx) (h : nonInvokerSigners false tx = []) :
    signAuthChecksDefault cb addr tx
      = .error .noUnsignedNonInvokerAuthEntries := by
  unfold signAuthChecksDefault
  simp [h]

/-- Second default check: the target address owes no signature. -/
theorem signAuthChecksDefault_notListed (cb : Option (Nat → Nat))
    (addr : String) (tx : Tx) (hne : nonInvokerSigners false tx ≠ [])
    (hni : addr ∉ nonInvokerSigners false tx) :
    signAuthChecksDefault cb addr tx = .error .noSignatureNeeded := by
  unfold signAuthChecksDefault
  simp [List.isEmpty_iff, hne, hni]

/-- Third default check: no signing callback. -/
theorem signAuthChecksDefault_noSigner (addr : String) (tx : Tx)
    (hne : nonInvokerSigners false tx ≠ [])
    (hin : addr ∈ nonInvokerSigners false tx) :
    signAuthChecksDefault none addr tx = .error .noSigner := by
  unfold signAuthChecksDefault
  simp [List.isEmpty_iff, hne, hin]

/-- All three default checks pass. -/
theorem signAuthChecksDefault_ok (f : Nat → Nat) (addr : String) (tx : Tx)
    (hne : nonInvokerSigners false tx ≠ [])
    (hin : addr ∈ nonInvokerSigners false tx) :
    signAuthChecksDefault (some f) addr tx = .ok () := by
  unfold signAuthChecksDefault
  simp [List.isEmpty_iff, hne, hin]

/-- A failing default check propagates out of the entry-signing body. -/
theorem signAuthEntriesOnTx_default_err (opts : Options) (st : AssembledState)
    (tx : Tx) (exp : Nat) (cb : Option (Nat → Nat)) (addr : String)
    (e : SignAuthError) (h : signAuthChecksDefault cb addr tx = .error e) :
    signAuthEntriesOnTx opts st tx exp cb addr none = .error e := by
  unfold signAuthEntriesOnTx
  simp only [h]

/-- Matching positions are replaced by the authorize function's output. -/
theorem signAuthEntriesLoop_matching (fn : AuthEntry → AuthEntry)
    (address : String) (l : List AuthEntry) (i : Nat) (e : AuthEntry)
    (a : String) (sig : ScVal) (exp : Nat)
    (hi : l[i]? = some e) (hc : e.credentials = .address a sig exp)
    (ha : a = address) :
    (signAuthEntriesLoop fn address l)[i]? = some (fn e) := by
  unfold signAuthEntriesLoop
  rw [List.getElem?_map, hi]
  simp [hc, ha]

/-- C8: with the default entry-authorization strategy, `signAuthEntries`
fails with `NoUnsignedNonInvokerAuthEntries` when nobody still needs to
sign, with `NoSignatureNeeded` when the target address is not in that list,
and with `NoSigner` when no signing callback is configured; the default
expiration, used when the caller supplies none, is the latest ledger
sequence plus 100, resolved once at call time and attached to every entry
the default strategy re-signs; with a custom authorize function those three
checks are skipped and the call succeeds. -/
theorem signAuthEntries_default_checks (opts : Options) (st : AssembledState)
    (expirationArg : Option Nat) (signAuthEntryArg : Option (Nat → Nat))
    (addressArg : Option String) (latestLedger : Nat) (tx : Tx)
    (hbuilt : st.built = some tx) :
    (nonInvokerSigners false tx = [] →
      signAuthEntries opts st expirationArg signAuthEntryArg addressArg none
        latestLedger = .error .noUnsignedNonInvokerAuthEntries) ∧
    (nonInvokerSigners false tx ≠ [] →
      (nonInvokerSigners false tx).contains (addressArg.getD opts.publicKey)
        = false →
      signAuthEntries opts st expirationArg signAuthEntryArg addressArg none
        latestLedger = .error .noSignatureNeeded) ∧
    (nonInvokerSigners false tx ≠ [] →
      (nonInvokerSigners false tx).contains (addressArg.getD opts.publicKey)
        = true →
      resolveSignAuthEntryCb opts signAuthEntryArg = none →
      signAuthEntries opts st expirationArg signAuthEntryArg addressArg none
        latestLedger = .error .noSigner) ∧
    (∀ f, nonInvokerSigners false tx ≠ [] →
      (nonInvokerSigners false tx).contains (addressArg.getD opts.publicKey)
        = true →
      resolveSignAuthEntryCb opts signAuthEntryArg = some f →
      expirationArg = none →
      signAuthEntries opts st expirationArg signAuthEntryArg addressArg none
          latestLedger =
        .ok { st with built := some (setAuth tx (signAuthEntriesLoop
          (fun e => stellarBaseAuthorizeEntry f e (latestLedger + 100)
            opts.networkPassphrase)
          (addressArg.getD opts.publicKey) (authEntriesOf tx))) } ∧
      ∀ (i : Nat) (e : AuthEntry) (a : String) (sig : ScVal) (exp : Nat),
        (authEntriesOf tx)[i]? = some e →
        e.credentials = SorobanCredentials.address a sig exp →
        a = addressArg.getD opts.publicKey →
        (signAuthEntriesLoop
          (fun e => stellarBaseAuthorizeEntry f e (latestLedger + 100)
            opts.networkPassphrase)
          (addressArg.getD opts.publicKey) (authEntriesOf tx))[i]? =
          some (AuthEntry.mk
            (SorobanCredentials.address a (ScVal.scvOther (f e.rootInvocation))
              (latestLedger + 100)) e.rootInvocation)) ∧
    (∀ fz, ∃ st', signAuthEntries opts st expirationArg signAuthEntryArg
      addressArg (some fz) latestLedger = .ok st') := by
  refine ⟨fun h0 => ?_, fun hne hni => ?_, fun hne hin hcb => ?_,
    fun f hne hin hcb hexp => ⟨?_, ?_⟩, fun fz => ?_⟩
  · unfold signAuthEntries
    rw [hbuilt]
    exact signAuthEntriesOnTx_default_err _ _ _ _ _ _ _
      (signAuthChecksDefault_empty _ _ _ h0)
  · unfold signAuthEntries
    rw [hbuilt]
    exact signAuthEntriesOnTx_default_err _ _ _ _ _ _ _
      (signAuthChecksDefault_notListed _ _ _ hne (by simpa using hni))
  · unfold signAuthEntries
    rw [hbuilt]
    rw [hcb]
    exact signAuthEntriesOnTx_default_err _ _ _ _ _ _ _
      (signAuthChecksDefault_noSigner _ _ hne (by simpa using hin))
  · unfold signAuthEntries
    rw [hbuilt, hcb, hexp]
    unfold signAuthEntriesOnTx
    dsimp only
    rw [signAuthChecksDefault_ok f _ tx hne (by simpa using hin)]
    rfl
  · intro i e a sig exp hi hc ha
    rw [signAuthEntriesLoop_matching _ _ _ i e a sig exp hi hc ha]
    unfold stellarBaseAuthorizeEntry
    rw [hc]
  · refine ⟨{ st with built := some (setAuth tx (signAuthEntriesLoop
        (fun e => fz e (expirationArg.getD (latestLedger + 100))
          opts.networkPassphrase)
        (addressArg.getD opts.publicKey) (authEntriesOf tx))) }, ?_⟩
    unfold signAuthEntries
    rw [hbuilt]
    rfl

/-- Witness for C8 at the fixture call: the default strategy with no
explicit expiration signs GBOB's entries with expiration 1000 + 100. -/
theorem signAuthEntries_default_checks_witness :
    signAuthEntries exOptsAutoRestore exBuiltState none none (some ("GBOB"))
        none 1000 =
      .ok { exBuiltState with built := some (setAuth exBuiltTx
        (signAuthEntriesLoop
          (fun e => stellarBaseAuthorizeEntry (fun n => n + 1) e (1000 + 100)
            exOptsAutoRestore.networkPassphrase)
          (Option.getD (some ("GBOB")) exOptsAutoRestore.publicKey)
          (authEntriesOf exBuiltTx))) } :=
  ((signAuthEntries_default_checks exOptsAutoRestore exBuiltState none none
      (some ("GBOB")) 1000 exBuiltTx rfl).2.2.2.1 (fun n => n + 1)
      (by rw [exBuiltTx_signers]; decide)
      (by rw [exBuiltTx_signers]; decide) rfl rfl).1

/-- C9: `restoreFootprint` requires an envelope-signing callback (`NoSigner`
otherwise, consuming nothing); the dedicated restore transaction it builds
has a single restore-footprint operation, the given minimum resource fee and
resource data, and the current account as source; it performs no restore
attempt of its own (the restore transaction is simulated with the restore
flag explicitly false, so restore never recurses); and with a signer it is
exactly the composition of building-and-simulating the restore transaction
with the submission outcome, failing with `RestorationFailure` when the
submission tracker never produced a terminal response. -/
theorem restoreFootprint_spec (opts : Options) (p : RestorePreamble)
    (acc : Option Account) (env : Env) (fuel : Nat) :
    (opts.signTransaction = none →
      restoreFootprintFuel (Nat.succ fuel) opts p acc env
        = (.error .noSigner, env, 0)) ∧
    (∀ (account : Account) (fee : String) (sd : SorobanTransactionData),
      (footprintRestoreDraft opts sd account fee).operations
          = [Operation.restoreFootprintOp] ∧
      (footprintRestoreDraft opts sd account fee).fee = fee ∧
      (footprintRestoreDraft opts sd account fee).sorobanData = some sd ∧
      (footprintRestoreDraft opts sd account fee).source
          = account.accountId) ∧
    ((restoreFootprintFuel fuel opts p acc env).2.2 = 0) ∧
    (∀ f, opts.signTransaction = some f →
      restoreFootprintFuel (Nat.succ fuel) opts p acc env =
        match buildFootprintRestoreTransactionFuel fuel opts p.transactionData
            (acc.getD (getAccount opts env)) p.minResourceFee env with
        | (.error e, env1, n) => (.error e, env1, n)
        | (.ok _, env1, n) =>
          match env1.restoreOutcomes with
          | [] => (.error .noResponse, env1, n)
          | outcome :: rest =>
            match outcome with
            | none => (.error .restorationFailure,
                { env1 with restoreOutcomes := rest }, n)
            | some b => (.ok b,
                { env1 with restoreOutcomes := rest }, n)) := by
  refine ⟨fun hnone => ?_, fun account fee sd => ⟨rfl, rfl, rfl, rfl⟩,
    restoreFootprintFuel_count fuel opts p acc env, fun f hf => ?_⟩
  · rw [restoreFootprintFuel, hnone]
  · rw [restoreFootprintFuel, hf]
    dsimp only
    rw [show simulateFuel fuel opts
        { emptyState with raw := some (footprintRestoreDraft opts
            p.transactionData (acc.getD (getAccount opts env))
            p.minResourceFee) } env (some false)
      = buildFootprintRestoreTransactionFuel fuel opts p.transactionData
          (acc.getD (getAccount opts env)) p.minResourceFee env from rfl]

/-- Options with no envelope-signing callback. -/
def exOptsNoSigner : Options := { exOptsNoRestore with signTransaction := none }

/-- An environment where the restore transaction simulates fine but the
restore submission never reaches a terminal response. -/
def exEnvFailedRestore : Env :=
  { responses := [SimResponse.success none exTxData]
    restoreOutcomes := [none]
    latestLedger := 1000
    accountSeq := 7 }

/-- Witness for C9: without a signer the failure is `NoSigner`; with a
signer and a submission that never turns terminal, the failure is
`RestorationFailure` (and no restore attempt is ever counted). -/
theorem restoreFootprint_spec_witness :
    restoreFootprintFuel 5 exOptsNoSigner exPreamble none exEnvTwoRestores
      = (.error .noSigner, exEnvTwoRestores, 0) ∧
    restoreFootprintFuel 5 exOptsNoRestore exPreamble none exEnvFailedRestore
      = (.error .restorationFailure,
          { responses := [], restoreOutcomes := [], latestLedger := 1000
            accountSeq := 7 }, 0) := by
  constructor
  · exact (restoreFootprint_spec exOptsNoSigner exPreamble none
      exEnvTwoRestores 4).1 rfl
  · rw [(restoreFootprint_spec exOptsNoRestore exPreamble none
      exEnvFailedRestore 4).2.2.2 (fun t => t) rfl]
    rfl

end Stellar
